import Mathlib

/-!
Shallow embedding of the reconciliation core of the HVAC-Scripts repository
(`src/excel_reader.py`, class `ExcelDataReader`): the field-mapping resolver
(`_extract_room_info` / `_read_standard_table`), the multi-source merge engine
(`read_from_multiple_sources`), the table-shape classifier
(`detect_table_type`) and the specialized heat-loss parser
(`read_heat_loss_table`).

Modelling conventions:
* Python cell/record values (strings and floats) are `Value` — floats are
  modelled as rationals (`Rat`); no arithmetic beyond parsing and equality
  is performed on them in the source, so this is exact for finite decimal
  literals.  `float('inf')` / `float('nan')` literals are outside the model.
* A pandas cell is `Option Value`: `none` is NaN / blank (`pd.isna`).
* Python dicts are association lists `List (String × α)` with
  insertion-order semantics (`aset` replaces in place or appends), matching
  CPython dict iteration order, which the source relies on.
* Fallible Python paths (`return None`, caught exceptions) are `Option`.
-/

set_option autoImplicit false
set_option maxRecDepth 100000

namespace HVAC

/-- A Python value appearing in room records: a string or a float
(modelled as a rational). Python `0 == 0.0` holds, and a `str` never
equals a `float`, which `Value`'s equality reproduces. -/
inductive Value where
  | str (s : String)
  | num (q : Rat)
deriving DecidableEq, Repr

/-- A pandas cell: `none` models NaN / a blank cell (`pd.isna` true). -/
abbrev Cell := Option Value

/-- Lookup in a Python dict modelled as an association list
(first match; keys are unique under dict semantics). -/
def aget {α : Type} (k : String) (l : List (String × α)) : Option α :=
  (l.find? (fun p => p.1 = k)).map (fun p => p.2)

/-- Python dict assignment `d[k] = v`: replaces the value in place if the
key exists, otherwise appends (insertion order preserved). -/
def aset {α : Type} (k : String) (v : α) (l : List (String × α)) :
    List (String × α) :=
  match l with
  | [] => [(k, v)]
  | (k', v') :: rest =>
      if k' = k then (k', v) :: rest else (k', v') :: aset k v rest

/-- Python whitespace test used by `str.strip()` (ASCII whitespace;
the repository's data never carries exotic Unicode spaces). -/
def isPySpace (c : Char) : Bool :=
  c = ' ' ∨ c = '\t' ∨ c = '\n' ∨ c = '\r' ∨ c = '\x0b' ∨ c = '\x0c'

/-- Python `str.strip()`. -/
def pyStrip (s : String) : String :=
  ⟨((s.data.dropWhile isPySpace).reverse.dropWhile isPySpace).reverse⟩

/-- Python `str.lower()` for the alphabets occurring in the source's
string literals: ASCII letters and Russian Cyrillic (А–Я, Ё). -/
def pyLowerChar (c : Char) : Char :=
  if 'A' ≤ c ∧ c ≤ 'Z' then Char.ofNat (c.toNat + 32)
  else if 0x410 ≤ c.toNat ∧ c.toNat ≤ 0x42F then Char.ofNat (c.toNat + 0x20)
  else if c.toNat = 0x401 then Char.ofNat 0x451
  else c

/-- Python `str.lower()` (character-wise, see `pyLowerChar`). -/
def pyLower (s : String) : String :=
  ⟨s.data.map pyLowerChar⟩

/-- Character-list prefix test (auxiliary for `pySubstr`). -/
def hasPrefixChars : List Char → List Char → Bool
  | [], _ => true
  | _ :: _, [] => false
  | a :: as, b :: bs => a = b && hasPrefixChars as bs

/-- Character-list substring test (auxiliary for `pySubstr`). -/
def hasSubstrChars (needle : List Char) : List Char → Bool
  | [] => needle.isEmpty
  | b :: bs => hasPrefixChars needle (b :: bs) || hasSubstrChars needle bs

/-- Python substring test `needle in hay`. -/
def pySubstr (needle hay : String) : Bool :=
  hasSubstrChars needle.data hay.data

/-- Numeric value of a list of decimal digit characters. -/
def digitsVal (cs : List Char) : Nat :=
  cs.foldl (fun a c => a * 10 + (c.toNat - 48)) 0

/-- Python `float(s)` on a string: optional sign, decimal digits with an
optional fractional part, optional decimal exponent; surrounding
whitespace stripped. Returns `none` on `ValueError`. (Python also accepts
`inf`/`nan` spellings, which produce non-finite floats and are outside
this model; the repository's data never contains them.) -/
def pyFloatStr (s : String) : Option Rat :=
  let cs := (pyStrip s).data
  -- sign
  let (sign, cs) : Rat × List Char :=
    match cs with
    | '+' :: rest => (1, rest)
    | '-' :: rest => (-1, rest)
    | _ => (1, cs)
  let ip := cs.takeWhile Char.isDigit
  let cs := cs.dropWhile Char.isDigit
  let (fp, cs) : List Char × List Char :=
    match cs with
    | '.' :: rest => (rest.takeWhile Char.isDigit, rest.dropWhile Char.isDigit)
    | _ => ([], cs)
  if ip.isEmpty ∧ fp.isEmpty then none
  else
    let mantissa : Rat :=
      (digitsVal ip : Rat) + (digitsVal fp : Rat) / ((10 : Rat) ^ fp.length)
    match cs with
    | [] => some (sign * mantissa)
    | e :: rest =>
      if e = 'e' ∨ e = 'E' then
        let (esign, rest) : Bool × List Char :=
          match rest with
          | '+' :: r => (true, r)
          | '-' :: r => (false, r)
          | _ => (true, rest)
        let ed := rest.takeWhile Char.isDigit
        let rest := rest.dropWhile Char.isDigit
        if ed.isEmpty ∨ ¬ rest.isEmpty then none
        else
          let factor : Rat := (10 : Rat) ^ digitsVal ed
          some (sign * (if esign then mantissa * factor else mantissa / factor))
      else none

/-- Python `float(value)` on a record/cell value: floats pass through,
strings are parsed (`none` = `ValueError`). -/
def pyFloat (v : Value) : Option Rat :=
  match v with
  | .num q => some q
  | .str s => pyFloatStr s

/-- Decimal rendering of a rational whose denominator divides `10^k`,
as `str()` prints a float: at least one fractional digit. -/
def decimalRepr (q : Rat) : String :=
  let sign := if q < 0 then "-" else ""
  let n := q.num.natAbs
  let d := q.den
  -- smallest exponent k ≤ 30 with d ∣ 10^k (floats in this data are
  -- short decimals; the fallback is never reached on the repository's data)
  match (List.range 31).find? (fun k => 10 ^ k % d = 0) with
  | some k =>
      let scaled := n * (10 ^ k / d)
      let ipart := scaled / 10 ^ k
      let fdigits := Nat.toDigits 10 (scaled % 10 ^ k)
      let fpad := List.replicate (k - fdigits.length) '0' ++ fdigits
      let ftrim := (fpad.reverse.dropWhile (fun c => c = '0')).reverse
      let f := if ftrim.isEmpty then "0" else ⟨ftrim⟩
      sign ++ toString ipart ++ "." ++ f
  | none => sign ++ toString n ++ "/" ++ toString d

/-- Python `k.startswith("_")`: the first character is an underscore. -/
def startsWithUnderscore (s : String) : Bool :=
  match s.data with
  | [] => false
  | c :: _ => c = '_'

/-- Python `str(value)`. For floats, CPython prints the shortest decimal
repr; `decimalRepr` reproduces it for the short decimal values this data
holds. All theorems below only ever take `str()` of string values. -/
def pyStr (v : Value) : String :=
  match v with
  | .str s => s
  | .num q => if q.den = 1 then toString q.num ++ ".0" else decimalRepr q

/-- A resolved room record: the Python dict produced by parsing one row
(field identifier → value), insertion-ordered. -/
abbrev RoomRecord := List (String × Value)

/-- A raw spreadsheet row of the standard layout: column header → cell. -/
abbrev RawRow := List (String × Cell)

/-- The fixed numeric field set of `ExcelDataReader._extract_room_info`
(line 200 of `excel_reader.py`). -/
def numericFields : List String :=
  ["area", "air_supply", "air_extract", "heat_loss", "temperature",
   "coordinate_x", "coordinate_y"]

/-- One iteration of the field loop of `ExcelDataReader._extract_room_info`:
`none` accumulates the `ValueError` raised by `float()` on non-numeric
text, which the function's `except` clause turns into a `None` result for
the whole row. A column absent from the row leaves the field unset;
a NaN cell stores the empty string; numeric-set fields store
`float(value) if value != "" else 0.0`; other fields store
`str(value).strip()`. -/
def extractField (row : RawRow) (acc : Option RoomRecord) (fc : String × String) :
    Option RoomRecord :=
  match acc with
  | none => none
  | some info =>
    let (field, excel_col) := fc
    match aget excel_col row with
    | none => some info
    | some cell =>
      match cell with
      | none => some (aset field (.str "") info)
      | some v =>
        if field ∈ numericFields then
          if v = .str "" then some (aset field (.num 0) info)
          else
            match pyFloat v with
            | some q => some (aset field (.num q) info)
            | none => none
        else some (aset field (.str (pyStrip (pyStr v))) info)

/-- Python truthiness test `not room_info.get("room_number")`: true when
the key is absent, or maps to the empty string (or a zero float, which
the text-coercion branch in fact never produces). -/
def roomNumberFalsy (info : RoomRecord) : Bool :=
  match aget "room_number" info with
  | none => true
  | some (.str s) => s = ""
  | some (.num q) => q = 0

/-- `ExcelDataReader._extract_room_info` (lines 179–215): folds the
configured `excel_columns` over the raw row; returns `none` either when a
numeric coercion raised `ValueError` (caught by the function's `except`)
or when the resolved `room_number` is falsy. -/
def extract_room_info (excel_columns : List (String × String)) (row : RawRow) :
    Option RoomRecord :=
  match excel_columns.foldl (extractField row) (some []) with
  | none => none
  | some info => if roomNumberFalsy info then none else some info

/-- `ExcelDataReader._read_standard_table` (lines 115–146) with the
pandas I/O abstracted as the already-loaded row list: drops rows whose
room-number column is NaN (`df.dropna(subset=[...])`), then resolves each
remaining row, skipping the rows on which `_extract_room_info` returns
`None` and continuing with the rest. -/
def read_standard_table (excel_columns : List (String × String))
    (rows : List RawRow) : List RoomRecord :=
  let room_col := (aget "room_number" excel_columns).getD "Номер помещения"
  let kept := rows.filter (fun r =>
    match aget room_col r with
    | some none => false
    | _ => true)
  kept.filterMap (extract_room_info excel_columns)

/-- The two table shapes `ExcelDataReader.detect_table_type` returns. -/
inductive TableType where
  | standard
  | heat_loss
deriving DecidableEq, Repr

/-- The row scan of `detect_table_type` (lines 841–851): for each row, the
first-column cell's lowered text is tested — first for the heat-loss
marker phrases, then for the standard header synonyms — and the first row
matching either test decides the result. Rows with no columns are
skipped. The fall-through is `standard`: the fallback block after the
loop (lines 854–863) returns `'standard'` on both of its branches, so it
cannot change the result. -/
def scanRowsForType : List (List String) → TableType
  | [] => .standard
  | row :: rest =>
    match row.head? with
    | none => scanRowsForType rest
    | some c0 =>
      let cell_text := pyLower c0
      if pySubstr "расчет теплопотерь" cell_text || pySubstr "теплопотерь" cell_text then
        .heat_loss
      else if pySubstr "номер помещения" cell_text || pySubstr "наименование" cell_text
          || pySubstr "площадь" cell_text then
        .standard
      else scanRowsForType rest

/-- `ExcelDataReader.detect_table_type` (lines 821–867) with the pandas
I/O abstracted as the loaded grid of `str(cell)` texts (a NaN cell reads
`"nan"`): scans the first 25 rows (`nrows=25`). -/
def detect_table_type (grid : List (List String)) : TableType :=
  scanRowsForType (grid.take 25)

/-- `row.iloc[i]` guarded by `len(row) > i` and `not pd.isna(...)`:
`some v` iff the row has an `i`-th cell and it is not NaN. -/
def cellAt (row : List Cell) (i : Nat) : Option Value :=
  match row.get? i with
  | some (some v) => some v
  | _ => none

/-- The per-row body of `ExcelDataReader.read_heat_loss_table`
(lines 759–805): room number from column A (index 0), room name from
column B (index 1), heat loss from column S (index 18); rows whose
number or name is missing/NaN, or strips to `""`, `"nan"` or `"None"`,
are skipped (`continue` ≙ `none`); a heat-loss value that fails `float()`
degrades to `0.0`; the temperature is the constant default `20.0`. -/
def parseHeatLossRow (row : List Cell) : Option RoomRecord :=
  match cellAt row 0, cellAt row 1 with
  | some room_number, some room_name =>
    let room_number_str := pyStrip (pyStr room_number)
    if room_number_str = "" ∨ room_number_str = "nan" ∨ room_number_str = "None" then none
    else
      let room_name_str := pyStrip (pyStr room_name)
      if room_name_str = "" ∨ room_name_str = "nan" ∨ room_name_str = "None" then none
      else
        let heat_loss_value : Rat :=
          match cellAt row 18 with
          | none => 0
          | some v => (pyFloat v).getD 0
        some [("room_number", .str room_number_str),
              ("room_name", .str room_name_str),
              ("heat_loss", .num heat_loss_value),
              ("temperature", .num 20)]
  | _, _ => none

/-- `ExcelDataReader.read_heat_loss_table` (lines 726–819) with the
pandas I/O abstracted as the loaded sheet grid: data starts at
spreadsheet row 20 (`skiprows=19`), and rows the per-row body rejects are
skipped while the remaining rows are processed. -/
def read_heat_loss_table (grid : List (List Cell)) : List RoomRecord :=
  (grid.drop 19).filterMap parseHeatLossRow

/-- One entry of the `data_sources` argument of
`ExcelDataReader.read_from_multiple_sources`, with the loading of
`file_path`/`sheet_name` abstracted: `rows` is what
`self.read_room_data(file_path, sheet_name)` returns for this source
(`[]` when the load fails or yields nothing — the function returns `[]`
on every failure path). `fields` is the allow-list (`[]` ≙ no
restriction, Python's falsy default `source.get("fields", [])`), and
`priority` is `source.get("priority", 0)`. -/
structure DataSource where
  name : String
  file_path : Option String
  rows : List RoomRecord
  fields : List String
  priority : Int
deriving DecidableEq, Repr

/-- One in-progress merged room of `read_from_multiple_sources`: the
Python dict `all_room_data[room_num]` split into its fixed parts — the
`"room_number"` key, the data-field keys (`fields`), and the `_sources` /
`_priority` bookkeeping sub-dicts. The split is faithful as long as no
data field is itself named with a leading underscore: the source's
cleanup step strips such keys, and its priority lookup key
`"_<field>_priority"` can never equal `"room_number"`, `"_sources"` or
`"_priority"`. -/
structure MergedRoom where
  room_number : String
  fields : List (String × Value)
  fsources : List (String × String)
  fprios : List (String × Int)
deriving DecidableEq, Repr

/-- The per-source entry of the `source_stats` dict. -/
structure SourceStats where
  rooms : Nat
  fields_added : Nat
deriving DecidableEq, Repr

/-- The "not provided" sentinel test: Python
`value not in ["", 0, 0.0, None]` negated (`0 == 0.0` in Python; a record
value is never `None`). -/
def isSentinel (v : Value) : Bool :=
  v = .str "" || v = .num 0

/-- The recorded-priority lookup of line 465:
`all_room_data[room_num].get(f"_{field}_priority", -1)`. The key
`"_<field>_priority"` is never written by the merge itself (priorities
go into the `_priority` sub-dict), so the lookup can only hit a *data*
field literally named `"_<field>_priority"`; a string value there would
raise `TypeError` on the `<=` comparison in Python — that case is
excluded by the no-underscore-field hypotheses of the theorems below. -/
def recordedPriorityLookup (room : MergedRoom) (field : String) : Rat :=
  match aget ("_" ++ field ++ "_priority") room.fields with
  | none => -1
  | some (.num q) => q
  | some (.str _) => -1

/-- The body of the per-field loop of `read_from_multiple_sources`
(lines 454–472), returning the updated room and 1 when `fields_added`
was incremented: skip `room_number`; skip fields excluded by a non-empty
allow-list; compute `should_update` from presence and the (buggy)
recorded-priority lookup; write value, source name and priority when
`should_update` holds and the value is not a sentinel. -/
def applyField (priority : Int) (source_name : String) (allowed_fields : List String)
    (room : MergedRoom) (fv : String × Value) : MergedRoom × Nat :=
  let (field, value) := fv
  if field = "room_number" then (room, 0)
  else if !allowed_fields.isEmpty && !allowed_fields.contains field then (room, 0)
  else
    let should_update : Bool :=
      (aget field room.fields).isNone
        || decide (recordedPriorityLookup room field ≤ (priority : Rat))
    if should_update && !isSentinel value then
      ({ room with
          fields := aset field value room.fields,
          fsources := aset field source_name room.fsources,
          fprios := aset field priority room.fprios }, 1)
    else (room, 0)

/-- The field loop of lines 454–472 run over a record's items in order
(Python's `for field, value in room_record.items()`), accumulating the
in-progress room and the number of `fields_added` increments. -/
def applyFieldsFold (priority : Int) (source_name : String) (allowed_fields : List String)
    (init : MergedRoom × Nat) : RoomRecord → MergedRoom × Nat
  | [] => init
  | fv :: rest =>
      let q := applyField priority source_name allowed_fields init.1 fv
      applyFieldsFold priority source_name allowed_fields (q.1, init.2 + q.2) rest

/-- The body of the per-record loop of `read_from_multiple_sources`
(lines 439–474): stringify and strip the record's room number, skip the
record when it is empty, otherwise fetch or create the room's entry, fold
the field loop over the record's items, and store the room back. The
accumulator carries the merge state and the `rooms_processed` /
`fields_added` counters. -/
def applyRecord (priority : Int) (source_name : String) (allowed_fields : List String)
    (acc : List (String × MergedRoom) × Nat × Nat) (room_record : RoomRecord) :
    List (String × MergedRoom) × Nat × Nat :=
  let (st, rooms_processed, fields_added) := acc
  let room_num := pyStrip (pyStr ((aget "room_number" room_record).getD (.str "")))
  if room_num = "" then (st, rooms_processed, fields_added)
  else
    let room0 := (aget room_num st).getD ⟨room_num, [], [], []⟩
    let folded := applyFieldsFold priority source_name allowed_fields (room0, 0) room_record
    (aset room_num folded.1 st, rooms_processed + 1, fields_added + folded.2)

/-- Python truthiness of `file_path`: `None` and `""` are falsy. -/
def filePathFalsy (fp : Option String) : Bool :=
  match fp with
  | none => true
  | some p => p = ""

/-- The per-source body of `read_from_multiple_sources` (lines 414–481):
a source with a falsy `file_path` is skipped with *no* stats entry
(line 423's `continue` precedes any `source_stats` assignment); a source
whose load produced no records gets a zero stats entry; otherwise the
record loop runs and the counters are stored. -/
def processSource (acc : List (String × MergedRoom) × List (String × SourceStats))
    (source : DataSource) : List (String × MergedRoom) × List (String × SourceStats) :=
  let (st, stats) := acc
  if filePathFalsy source.file_path then (st, stats)
  else if source.rows.isEmpty then (st, aset source.name ⟨0, 0⟩ stats)
  else
    let folded := source.rows.foldl
      (applyRecord source.priority source.name source.fields) (st, 0, 0)
    (folded.1, aset source.name ⟨folded.2.1, folded.2.2⟩ stats)

/-- The cleanup of lines 484–488: the emitted record is the room dict
with the underscore-prefixed bookkeeping keys stripped — `room_number`
(inserted first at creation) followed by the data fields in insertion
order. -/
def cleanRoom (room : MergedRoom) : RoomRecord :=
  ("room_number", .str room.room_number)
    :: room.fields.filter (fun fv => ! startsWithUnderscore fv.1)

/-- `ExcelDataReader.read_from_multiple_sources` (lines 389–497) with the
per-source loading abstracted into `DataSource.rows`: folds the sources
in declaration order over an empty state, then emits the cleaned rooms in
insertion order together with the per-source statistics. -/
def read_from_multiple_sources (data_sources : List DataSource) :
    List RoomRecord × List (String × SourceStats) :=
  let folded := data_sources.foldl processSource ([], [])
  (folded.1.map (fun p => cleanRoom p.2), folded.2)

/-- Observable for frame theorems: the value the merge state holds for
field `f` of room `room` (`none` when the room or the field is absent). -/
def mergedFieldValue (st : List (String × MergedRoom)) (room f : String) :
    Option Value :=
  match aget room st with
  | none => none
  | some r => aget f r.fields

/-- Whether resolving `row` under `excel_columns` hits a numeric-coercion
failure: some configured numeric field's column holds a non-NaN,
non-empty value that `float()` rejects. This predicate characterises the
`ValueError` path of `_extract_room_info` (see the C5 theorem). -/
def coercionFailure (excel_columns : List (String × String)) (row : RawRow) : Bool :=
  excel_columns.any (fun fc =>
    match aget fc.2 row with
    | some (some v) =>
        decide (fc.1 ∈ numericFields) && !decide (v = .str "") && (pyFloat v).isNone
    | _ => false)

/-- The record the field loop of `_extract_room_info` builds when no
coercion failure occurs (`[]` on failure; only used through the C5
characterisation). -/
def resolvedRecord (excel_columns : List (String × String)) (row : RawRow) :
    RoomRecord :=
  (excel_columns.foldl (extractField row) (some [])).getD []

/-- Invariant of the merge state: every stored room has a non-empty
room number. -/
def roomNumbersOk (st : List (String × MergedRoom)) : Prop :=
  ∀ p ∈ st, p.2.room_number ≠ ""

/-- Modelled from the spec's words for the amended C9: the first scanned
cell that matches either the heat-loss marker or a standard-header
synonym decides the shape (marker checked first within a cell); `none`
when no scanned cell matches. -/
def firstCellDecision : List String → Option TableType
  | [] => none
  | c :: rest =>
    let t := pyLower c
    if pySubstr "расчет теплопотерь" t || pySubstr "теплопотерь" t then some .heat_loss
    else if pySubstr "номер помещения" t || pySubstr "наименование" t
        || pySubstr "площадь" t then some .standard
    else firstCellDecision rest

/-! ## Auxiliary lemmas on the dict model -/

theorem aget_nil {α : Type} (k : String) : aget k ([] : List (String × α)) = none := rfl

theorem aget_cons_self {α : Type} (k : String) (v : α) (l : List (String × α)) :
    aget k ((k, v) :: l) = some v := by
  simp [aget, List.find?_cons_of_pos]

theorem aget_cons_ne {α : Type} {k k' : String} (h : k' ≠ k) (v : α)
    (l : List (String × α)) : aget k ((k', v) :: l) = aget k l := by
  simp [aget, List.find?_cons_of_neg, h]

theorem aget_aset {α : Type} (k k' : String) (v : α) (l : List (String × α)) :
    aget k (aset k' v l) = if k' = k then some v else aget k l := by
  induction l with
  | nil =>
    by_cases h : k' = k
    · subst h; simp [aset, aget_cons_self]
    · simp [aset, h, aget_cons_ne h, aget_nil]
  | cons p rest ih =>
    obtain ⟨k'', v''⟩ := p
    by_cases h1 : k'' = k'
    · subst h1
      simp only [aset, if_pos rfl]
      by_cases h2 : k'' = k
      · subst h2; simp [aget_cons_self]
      · simp [aget_cons_ne h2, if_neg (show k'' ≠ k from h2)]
    · simp only [aset, if_neg h1]
      by_cases h2 : k'' = k
      · subst h2
        have : k' ≠ k'' := fun h => h1 h.symm
        simp [aget_cons_self, if_neg this]
      · simp [aget_cons_ne h2, ih]

theorem mem_aset {α : Type} {p : String × α} {k : String} {v : α}
    {l : List (String × α)} (h : p ∈ aset k v l) : p = (k, v) ∨ p ∈ l := by
  induction l with
  | nil => simpa [aset] using h
  | cons q rest ih =>
    obtain ⟨k'', v''⟩ := q
    by_cases h1 : k'' = k
    · subst h1
      rw [show aset k'' v ((k'', v'') :: rest) = (k'', v) :: rest from by
        simp [aset]] at h
      rcases List.mem_cons.mp h with h | h
      · left; exact h
      · right; exact List.mem_cons_of_mem _ h
    · rw [show aset k v ((k'', v'') :: rest) = (k'', v'') :: aset k v rest from by
        simp [aset, h1]] at h
      rcases List.mem_cons.mp h with h | h
      · right; rw [h]; exact List.mem_cons_self _ _
      · rcases ih h with h | h
        · left; exact h
        · right; exact List.mem_cons_of_mem _ h

theorem aget_mem {α : Type} {k : String} {x : α} {l : List (String × α)}
    (h : aget k l = some x) : (k, x) ∈ l := by
  induction l with
  | nil => simp [aget_nil] at h
  | cons q rest ih =>
    obtain ⟨k', v'⟩ := q
    by_cases hk : k' = k
    · subst hk
      rw [aget_cons_self] at h
      injection h with h2
      subst h2
      exact List.mem_cons_self _ _
    · rw [aget_cons_ne hk] at h
      exact List.mem_cons_of_mem _ (ih h)

/-- The merge's buggy recorded-priority key can never equal the field
name itself (the lengths differ), so on records without
underscore-prefixed field names the lookup always defaults. -/
theorem priorityKey_ne (f : String) : ("_" ++ f ++ "_priority") ≠ f := by
  intro h
  have hl := congrArg String.length h
  simp only [String.length_append,
    show ("_" : String).length = 1 from rfl,
    show ("_priority" : String).length = 9 from rfl] at hl
  omega

/-! ## Lemmas on the per-field merge step -/

theorem applyField_room_number_field (prio : Int) (sname : String)
    (allowed : List String) (room : MergedRoom) (v : Value) :
    applyField prio sname allowed room ("room_number", v) = (room, 0) := by
  simp [applyField]

theorem applyField_room_number (prio : Int) (sname : String) (allowed : List String)
    (room : MergedRoom) (fv : String × Value) :
    ((applyField prio sname allowed room fv).1).room_number = room.room_number := by
  obtain ⟨f, v⟩ := fv
  simp only [applyField]
  split_ifs <;> rfl

theorem applyField_not_allowed (prio : Int) (sname : String) {allowed : List String}
    (room : MergedRoom) {g : String} (v : Value) (hne : allowed ≠ [])
    (hno : allowed.contains g = false) :
    applyField prio sname allowed room (g, v) = (room, 0) := by
  have hie : allowed.isEmpty = false := by
    cases allowed with
    | nil => exact absurd rfl hne
    | cons a l => rfl
  have hmem : g ∉ allowed := by simpa using hno
  by_cases hrn : g = "room_number"
  · subst hrn; simp [applyField]
  · simp [applyField, hrn, hie, hmem]

theorem applyField_fields_preserved (prio : Int) (sname : String) (allowed : List String)
    (room : MergedRoom) {f g : String} (v : Value) (h : g ≠ f) :
    aget f ((applyField prio sname allowed room (g, v)).1).fields
      = aget f room.fields := by
  simp only [applyField]
  split_ifs <;> simp [aget_aset, h]

theorem applyField_sentinel (prio : Int) (sname : String) (allowed : List String)
    (room : MergedRoom) (f : String) {v : Value} (hv : isSentinel v = true) :
    applyField prio sname allowed room (f, v) = (room, 0) := by
  simp only [applyField]
  split_ifs with h1 h2 h3
  · rfl
  · rfl
  · rw [hv] at h3; simp at h3
  · rfl

theorem applyField_write_new (prio : Int) (sname : String) (room : MergedRoom)
    {f : String} (v : Value) (hf : f ≠ "room_number")
    (habs : aget f room.fields = none) (hs : isSentinel v = false) :
    applyField prio sname [] room (f, v)
      = (⟨room.room_number, aset f v room.fields,
          aset f sname room.fsources, aset f prio room.fprios⟩, 1) := by
  simp [applyField, hf, habs, hs]

theorem applyField_write_over (prio : Int) (sname : String) (room : MergedRoom)
    {f : String} (v : Value) {w : Value} (hf : f ≠ "room_number")
    (hw : aget f room.fields = some w)
    (hp : recordedPriorityLookup room f ≤ (prio : Rat))
    (hs : isSentinel v = false) :
    applyField prio sname [] room (f, v)
      = (⟨room.room_number, aset f v room.fields,
          aset f sname room.fsources, aset f prio room.fprios⟩, 1) := by
  simp [applyField, hf, hw, hs, decide_eq_true hp]

theorem applyFieldsFold_room_number (items : RoomRecord) :
    ∀ (prio : Int) (sname : String) (allowed : List String) (init : MergedRoom × Nat),
      ((applyFieldsFold prio sname allowed init items).1).room_number
        = init.1.room_number := by
  induction items with
  | nil => intro prio sname allowed init; rfl
  | cons fv rest ih =>
    intro prio sname allowed init
    simp only [applyFieldsFold]
    rw [ih]
    exact applyField_room_number prio sname allowed init.1 fv

theorem applyFieldsFold_restricted {f : String} (hf : f ≠ "heat_loss")
    (items : RoomRecord) :
    ∀ (prio : Int) (sname : String) (init : MergedRoom × Nat),
      aget f ((applyFieldsFold prio sname ["heat_loss"] init items).1).fields
        = aget f init.1.fields := by
  induction items with
  | nil => intro prio sname init; rfl
  | cons fv rest ih =>
    intro prio sname init
    obtain ⟨g, v⟩ := fv
    simp only [applyFieldsFold]
    rw [ih]
    by_cases hg : g = f
    · subst hg
      rw [applyField_not_allowed prio sname init.1 v (by simp) (by simpa using hf)]
    · exact applyField_fields_preserved prio sname _ init.1 v hg

theorem mergedFieldValue_aset (k : String) (r : MergedRoom)
    (st : List (String × MergedRoom)) (room f : String) :
    mergedFieldValue (aset k r st) room f
      = if k = room then aget f r.fields else mergedFieldValue st room f := by
  simp only [mergedFieldValue, aget_aset]
  split_ifs <;> rfl

theorem applyRecord_restricted {f : String} (hf : f ≠ "heat_loss")
    (prio : Int) (sname : String)
    (acc : List (String × MergedRoom) × Nat × Nat) (room_record : RoomRecord)
    (room : String) :
    mergedFieldValue ((applyRecord prio sname ["heat_loss"] acc room_record).1) room f
      = mergedFieldValue acc.1 room f := by
  obtain ⟨st, rp, fa⟩ := acc
  simp only [applyRecord]
  split_ifs with h
  · rfl
  · rw [mergedFieldValue_aset]
    split_ifs with hr
    · rw [applyFieldsFold_restricted hf]
      rw [← hr]
      cases hst : aget
          (pyStrip (pyStr ((aget "room_number" room_record).getD (Value.str "")))) st with
      | none => simp [mergedFieldValue, hst, aget_nil]
      | some r => simp [mergedFieldValue, hst]
    · rfl

theorem foldRecords_restricted {f : String} (hf : f ≠ "heat_loss") (prio : Int)
    (sname : String) (rows : List RoomRecord) :
    ∀ (acc : List (String × MergedRoom) × Nat × Nat) (room : String),
      mergedFieldValue ((rows.foldl (applyRecord prio sname ["heat_loss"]) acc).1) room f
        = mergedFieldValue acc.1 room f := by
  induction rows with
  | nil => intro acc room; rfl
  | cons r rest ih =>
    intro acc room
    rw [List.foldl_cons, ih, applyRecord_restricted hf]

theorem applyRecord_roomNumbersOk (prio : Int) (sname : String) (allowed : List String)
    (acc : List (String × MergedRoom) × Nat × Nat) (room_record : RoomRecord)
    (h : roomNumbersOk acc.1) :
    roomNumbersOk ((applyRecord prio sname allowed acc room_record).1) := by
  obtain ⟨st, rp, fa⟩ := acc
  simp only [applyRecord]
  split_ifs with hempty
  · exact h
  · intro p hp
    rcases mem_aset hp with hq | hq
    · rw [hq]
      show ((applyFieldsFold prio sname allowed _ room_record).1).room_number ≠ ""
      rw [applyFieldsFold_room_number]
      cases hst : aget
          (pyStrip (pyStr ((aget "room_number" room_record).getD (Value.str "")))) st with
      | none => simpa [hst] using hempty
      | some r =>
        have := h (_, r) (aget_mem hst)
        simpa [hst] using this
    · exact h p hq

theorem foldRecords_roomNumbersOk (prio : Int) (sname : String) (allowed : List String)
    (rows : List RoomRecord) :
    ∀ (acc : List (String × MergedRoom) × Nat × Nat), roomNumbersOk acc.1 →
      roomNumbersOk ((rows.foldl (applyRecord prio sname allowed) acc).1) := by
  induction rows with
  | nil => intro acc h; exact h
  | cons r rest ih =>
    intro acc h
    rw [List.foldl_cons]
    exact ih _ (applyRecord_roomNumbersOk prio sname allowed acc r h)

theorem processSource_roomNumbersOk
    (acc : List (String × MergedRoom) × List (String × SourceStats))
    (source : DataSource) (h : roomNumbersOk acc.1) :
    roomNumbersOk ((processSource acc source).1) := by
  obtain ⟨st, stats⟩ := acc
  simp only [processSource]
  split_ifs
  · exact h
  · exact h
  · exact foldRecords_roomNumbersOk source.priority source.name source.fields
      source.rows (st, 0, 0) h

theorem mergeFold_roomNumbersOk (sources : List DataSource) :
    ∀ (acc : List (String × MergedRoom) × List (String × SourceStats)),
      roomNumbersOk acc.1 →
      roomNumbersOk ((sources.foldl processSource acc).1) := by
  induction sources with
  | nil => intro acc h; exact h
  | cons s rest ih =>
    intro acc h
    rw [List.foldl_cons]
    exact ih _ (processSource_roomNumbersOk acc s h)

/-! ## Lemmas on the field-mapping resolver -/

theorem extractFold_none (row : RawRow) (cfg : List (String × String)) :
    cfg.foldl (extractField row) none = none := by
  induction cfg with
  | nil => rfl
  | cons fc rest ih =>
    rw [List.foldl_cons, show extractField row none fc = none from rfl]
    exact ih

theorem extractFold_none_iff (row : RawRow) (cfg : List (String × String)) :
    ∀ (info : RoomRecord),
      cfg.foldl (extractField row) (some info) = none
        ↔ coercionFailure cfg row = true := by
  induction cfg with
  | nil => intro info; simp [coercionFailure]
  | cons fc rest ih =>
    intro info
    obtain ⟨f, c⟩ := fc
    rw [List.foldl_cons]
    have hcf : coercionFailure ((f, c) :: rest) row
        = ((match aget c row with
            | some (some v) =>
                decide (f ∈ numericFields) && !decide (v = .str "") && (pyFloat v).isNone
            | _ => false) || coercionFailure rest row) := by
      simp [coercionFailure]
    rw [hcf]
    cases hcell : aget c row with
    | none => simp only [extractField, hcell]; simp [ih]
    | some cell =>
      cases cell with
      | none => simp only [extractField, hcell]; simp [ih]
      | some v =>
        by_cases hnum : f ∈ numericFields
        · by_cases hempty : v = .str ""
          · simp only [extractField, hcell, if_pos hnum, if_pos hempty]
            simp [ih, hempty]
          · cases hpf : pyFloat v with
            | none =>
              simp only [extractField, hcell, if_pos hnum, if_neg hempty, hpf]
              simp [extractFold_none, hnum, hempty, hpf]
            | some q =>
              simp only [extractField, hcell, if_pos hnum, if_neg hempty, hpf]
              simp [ih, hpf]
        · simp only [extractField, hcell, if_neg hnum]
          simp [ih, hnum]

theorem extract_room_info_none_iff (cfg : List (String × String)) (row : RawRow) :
    extract_room_info cfg row = none
      ↔ (coercionFailure cfg row = true
          ∨ roomNumberFalsy (resolvedRecord cfg row) = true) := by
  unfold extract_room_info resolvedRecord
  cases hfold : cfg.foldl (extractField row) (some []) with
  | none =>
    simp only [Option.getD_none]
    constructor
    · intro _; exact Or.inl ((extractFold_none_iff row cfg []).mp hfold)
    · intro _; trivial
  | some info =>
    have hnf : coercionFailure cfg row = false := by
      cases hb : coercionFailure cfg row with
      | false => rfl
      | true =>
        have := (extractFold_none_iff row cfg []).mpr hb
        rw [hfold] at this
        exact absurd this (by simp)
    simp only [Option.getD_some, hnf]
    by_cases hrf : roomNumberFalsy info = true
    · simp [hrf]
    · simp [hrf]

theorem extract_drops_row (cfg₁ cfg₂ : List (String × String)) (f c : String)
    (row : RawRow) (v : Value) (hnum : f ∈ numericFields)
    (hc : aget c row = some (some v)) (hne : ¬ v = .str "")
    (hpf : pyFloat v = none) :
    extract_room_info (cfg₁ ++ (f, c) :: cfg₂) row = none := by
  unfold extract_room_info
  rw [List.foldl_append]
  cases hA : cfg₁.foldl (extractField row) (some []) with
  | none =>
    rw [List.foldl_cons, show extractField row none (f, c) = none from rfl,
      extractFold_none]
  | some info =>
    rw [List.foldl_cons,
      show extractField row (some info) (f, c) = none from by
        simp [extractField, hc, hnum, hne, hpf],
      extractFold_none]

/-! ## Claim theorems -/

/-- Claim C1 (code-bug evidence): the merge does NOT respect recorded
priorities. Source `s1` (priority 2) sets `heat_loss` to 1200, then
source `s2` (priority 1) overwrites it with 900, because the code reads
the key `"_heat_loss_priority"` — which is never written — instead of
`_priority["heat_loss"]`, so the recorded priority always defaults to −1
and any later source with priority ≥ −1 wins. Under the claim, the final
value would be 1200. -/
theorem c1_lower_priority_later_source_overwrites :
    read_from_multiple_sources
      [⟨"s1", some "a.xlsx",
        [[("room_number", .str "101"), ("heat_loss", .num 1200)]], ["heat_loss"], 2⟩,
       ⟨"s2", some "b.xlsx",
        [[("room_number", .str "101"), ("heat_loss", .num 900)]], ["heat_loss"], 1⟩]
      = ([[("room_number", .str "101"), ("heat_loss", .num 900)]],
         [("s1", ⟨1, 1⟩), ("s2", ⟨1, 1⟩)]) := by
  with_unfolding_all decide

/-- Claim C2 counterexample: with equal priorities of −2 the
later-declared source does NOT win the tie — the earlier source's value
survives, because the buggy recorded-priority default −1 exceeds −2 and
blocks the overwrite. The claim as stated (later wins for every equal
priority) is therefore false. -/
theorem c2_counterexample_negative_priority_tie :
    (read_from_multiple_sources
      [⟨"A", some "a.xlsx",
        [[("room_number", .str "200"), ("room_name", .str "first")]], [], -2⟩,
       ⟨"B", some "b.xlsx",
        [[("room_number", .str "200"), ("room_name", .str "second")]], [], -2⟩]).1
      = [[("room_number", .str "200"), ("room_name", .str "first")]]
    ∧ Value.str "first" ≠ Value.str "second" := by
  constructor
  · with_unfolding_all decide
  · with_unfolding_all decide

/-- Claim C2 (amended): when two sources — each contributing one record
for the same room and a non-sentinel value for the same field — carry
exactly equal priorities **at least −1** (every priority the repository
declares is positive), the later-declared source's value wins the tie;
for equal priorities ≤ −2 the earlier source's value survives instead
(see the counterexample), an artifact of the recorded-priority lookup
defaulting to −1. -/
theorem c2_amended_equal_priority_later_wins
    (p : Int) (room f : String) (vA vB : Value)
    (hp : -1 ≤ p) (hf : ¬ f = "room_number") (hfu : startsWithUnderscore f = false)
    (hA : isSentinel vA = false) (hB : isSentinel vB = false)
    (hroom : ¬ pyStrip room = "") :
    (read_from_multiple_sources
      [⟨"A", some "a.xlsx", [[("room_number", .str room), (f, vA)]], [], p⟩,
       ⟨"B", some "b.xlsx", [[("room_number", .str room), (f, vB)]], [], p⟩]).1
      = [[("room_number", .str (pyStrip room)), (f, vB)]] := by
  have hpr : ((-1 : Rat) ≤ (p : Rat)) := by exact_mod_cast hp
  have haveA : applyFieldsFold p "A" [] (⟨pyStrip room, [], [], []⟩, 0)
      [("room_number", .str room), (f, vA)]
      = (⟨pyStrip room, [(f, vA)], [(f, "A")], [(f, p)]⟩, 1) := by
    simp only [applyFieldsFold, applyField_room_number_field,
      applyField_write_new p "A" ⟨pyStrip room, [], [], []⟩ vA hf (aget_nil f) hA]
    simp [aset]
  have hrec : recordedPriorityLookup ⟨pyStrip room, [(f, vA)], [(f, "A")], [(f, p)]⟩ f
      = -1 := by
    simp only [recordedPriorityLookup]
    rw [aget_cons_ne (Ne.symm (priorityKey_ne f)) vA [], aget_nil]
  have haveB : applyFieldsFold p "B" []
      (⟨pyStrip room, [(f, vA)], [(f, "A")], [(f, p)]⟩, 0)
      [("room_number", .str room), (f, vB)]
      = (⟨pyStrip room, [(f, vB)], [(f, "B")], [(f, p)]⟩, 1) := by
    simp only [applyFieldsFold, applyField_room_number_field,
      applyField_write_over p "B" ⟨pyStrip room, [(f, vA)], [(f, "A")], [(f, p)]⟩ vB hf
        (aget_cons_self f vA []) (by rw [hrec]; exact hpr) hB]
    simp [aset]
  have hRA : applyRecord p "A" [] ([], 0, 0) [("room_number", .str room), (f, vA)]
      = ([(pyStrip room, ⟨pyStrip room, [(f, vA)], [(f, "A")], [(f, p)]⟩)], 1, 1) := by
    simp only [applyRecord, aget_cons_self, Option.getD_some, pyStr, aget_nil,
      Option.getD_none, if_neg hroom, haveA]
    simp [aset]
  have hRB : applyRecord p "B" []
      ([(pyStrip room, ⟨pyStrip room, [(f, vA)], [(f, "A")], [(f, p)]⟩)], 0, 0)
      [("room_number", .str room), (f, vB)]
      = ([(pyStrip room, ⟨pyStrip room, [(f, vB)], [(f, "B")], [(f, p)]⟩)], 1, 1) := by
    simp only [applyRecord, aget_cons_self, Option.getD_some, pyStr,
      if_neg hroom, haveB]
    simp [aset]
  have hPA : processSource ([], [])
      (⟨"A", some "a.xlsx", [[("room_number", .str room), (f, vA)]], [], p⟩ : DataSource)
      = ([(pyStrip room, ⟨pyStrip room, [(f, vA)], [(f, "A")], [(f, p)]⟩)],
         [("A", ⟨1, 1⟩)]) := by
    simp only [processSource, filePathFalsy, List.isEmpty_cons, List.foldl_cons,
      List.foldl_nil, hRA]
    simp [aset]
  have hPB : processSource
      ([(pyStrip room, ⟨pyStrip room, [(f, vA)], [(f, "A")], [(f, p)]⟩)],
       [("A", ⟨1, 1⟩)])
      (⟨"B", some "b.xlsx", [[("room_number", .str room), (f, vB)]], [], p⟩ : DataSource)
      = ([(pyStrip room, ⟨pyStrip room, [(f, vB)], [(f, "B")], [(f, p)]⟩)],
         [("A", ⟨1, 1⟩), ("B", ⟨1, 1⟩)]) := by
    simp only [processSource, filePathFalsy, List.isEmpty_cons, List.foldl_cons,
      List.foldl_nil, hRB]
    simp [aset]
  simp only [read_from_multiple_sources, List.foldl_cons, List.foldl_nil, hPA, hPB]
  simp [cleanRoom, hfu]

/-- Witness for the amended C2: scenario B of the spec — two sources at
priority 5, `room_name` "first" then "second" for room "200", merged
value "second". -/
theorem c2_witness :
    (read_from_multiple_sources
      [⟨"A", some "a.xlsx",
        [[("room_number", .str "200"), ("room_name", .str "first")]], [], 5⟩,
       ⟨"B", some "b.xlsx",
        [[("room_number", .str "200"), ("room_name", .str "second")]], [], 5⟩]).1
      = [[("room_number", .str (pyStrip "200")), ("room_name", .str "second")]] :=
  c2_amended_equal_priority_later_wins 5 "200" "room_name"
    (.str "first") (.str "second")
    (by decide) (by decide) (by decide) (by decide) (by decide) (by decide)

/-- Claim C3: a sentinel value (empty string, or the numeric zero that
Python's `0 == 0.0` identifies) never overwrites and never creates a
merged field — the per-field step returns the room unchanged with no
`fields_added` increment — and scenario A of the spec merges exactly as
claimed: `heat_loss` 1200 survives source2's 0, `temperature` 22 and
`area` 25.5 are taken. -/
theorem c3_sentinel_values_contribute_nothing :
    (∀ (prio : Int) (sname : String) (allowed : List String) (room : MergedRoom)
        (f : String) (v : Value), isSentinel v = true →
        applyField prio sname allowed room (f, v) = (room, 0))
    ∧ read_from_multiple_sources
        [⟨"source1", some "heat.xlsx",
          [[("room_number", .str "101"), ("heat_loss", .num 1200),
            ("temperature", .num 22)]], ["heat_loss", "temperature"], 1⟩,
         ⟨"source2", some "air.xlsx",
          [[("room_number", .str "101"), ("area", .num (51/2)),
            ("heat_loss", .num 0)]], ["area", "heat_loss"], 2⟩]
        = ([[("room_number", .str "101"), ("heat_loss", .num 1200),
             ("temperature", .num 22), ("area", .num (51/2))]],
           [("source1", ⟨1, 2⟩), ("source2", ⟨1, 1⟩)]) :=
  ⟨fun prio sname allowed room f v hv =>
      applyField_sentinel prio sname allowed room f hv,
   by with_unfolding_all decide⟩

/-- Witness for C3: the sentinel conjunct applied at source2's
`heat_loss = 0` against the merged room that already holds 1200. -/
theorem c3_witness :
    applyField 2 "source2" ["area", "heat_loss"]
      ⟨"101", [("heat_loss", .num 1200)], [("heat_loss", "source1")],
        [("heat_loss", 1)]⟩ ("heat_loss", .num 0)
      = (⟨"101", [("heat_loss", .num 1200)], [("heat_loss", "source1")],
          [("heat_loss", 1)]⟩, 0) :=
  c3_sentinel_values_contribute_nothing.1 2 "source2" ["area", "heat_loss"]
    ⟨"101", [("heat_loss", .num 1200)], [("heat_loss", "source1")],
      [("heat_loss", 1)]⟩ "heat_loss" (.num 0) (by decide)

/-- Claim C4 counterexample: a blank (NaN) cell in the numeric-designated
`temperature` column resolves to the empty STRING, not to `0.0` — the
`pd.isna` branch stores `""` before the numeric branch is reached. -/
theorem c4_counterexample_blank_numeric_is_empty_string :
    extract_room_info [("room_number", "N"), ("temperature", "T")]
      [("N", some (.str "101")), ("T", none)]
      = some [("room_number", .str "101"), ("temperature", .str "")]
    ∧ Value.str "" ≠ Value.num 0 := by
  constructor
  · with_unfolding_all decide
  · with_unfolding_all decide

/-- Claim C5 counterexample: non-numeric text in the numeric `area`
column makes the resolver return absent for the WHOLE row even though
the very same row's `room_number` resolves to the non-empty `"101"` —
so "absent exactly when room_number is empty" is false. -/
theorem c5_counterexample_absent_without_empty_room :
    extract_room_info [("room_number", "N"), ("area", "A")]
      [("N", some (.str "101")), ("A", some (.str "abc"))] = none
    ∧ extract_room_info [("room_number", "N")]
        [("N", some (.str "101")), ("A", some (.str "abc"))]
        = some [("room_number", .str "101")] := by
  constructor
  · with_unfolding_all decide
  · with_unfolding_all decide

/-- Claim C8 counterexample: a source with no file reference is skipped
with NO summary-statistics entry at all (the `continue` at line 425
precedes every `source_stats` assignment), contradicting the claim that
it is recorded as a zero-rooms, zero-fields entry. -/
theorem c8_counterexample_pathless_source_not_in_stats :
    read_from_multiple_sources [⟨"s", none, [], [], 1⟩] = ([], [])
    ∧ aget "s" (read_from_multiple_sources [⟨"s", none, [], [], 1⟩]).2 = none := by
  constructor
  · with_unfolding_all decide
  · with_unfolding_all decide

/-- Claim C9 counterexample: a header synonym (`"площадь"`) in an earlier
scanned cell makes the classifier return `standard` even though the
heat-loss marker phrase appears in a later scanned cell — the marker does
NOT take precedence over everything else; the scan returns at the first
matching cell. -/
theorem c9_counterexample_marker_not_global_precedence :
    detect_table_type [["площадь"], ["расчет теплопотерь"]] = .standard
    ∧ pySubstr "теплопотерь" (pyLower "расчет теплопотерь") = true
    ∧ TableType.standard ≠ TableType.heat_loss := by
  refine ⟨?_, ?_, ?_⟩
  · with_unfolding_all decide
  · with_unfolding_all decide
  · with_unfolding_all decide

/-- Claim C9 (amended): the classifier scans the first-column cell of
each of the first 25 rows in order (rows with no cells are skipped,
other columns are never examined); the FIRST scanned cell containing the
marker phrase or a header synonym decides — the marker selects the
heat-loss shape, a synonym selects standard, with the marker checked
first within that one cell — and when no scanned cell matches, the
default is standard. -/
theorem c9_amended_first_matching_cell_decides (grid : List (List String)) :
    detect_table_type grid
      = (firstCellDecision ((grid.take 25).filterMap List.head?)).getD .standard := by
  unfold detect_table_type
  generalize grid.take 25 = rows
  induction rows with
  | nil => rfl
  | cons row rest ih =>
    cases row with
    | nil => simpa [scanRowsForType] using ih
    | cons c cs =>
      simp only [scanRowsForType, List.filterMap_cons, List.head?, firstCellDecision]
      split_ifs <;> simp_all

/-- Claim C6: every record emitted by the multi-source merge carries a
non-empty `room_number` — records whose stringified, stripped room
number is empty are skipped, rooms are keyed by that non-empty string,
and the cleanup step re-emits it as the record's `room_number`. -/
theorem c6_merged_records_have_nonempty_room_number
    (sources : List DataSource) (r : RoomRecord)
    (hr : r ∈ (read_from_multiple_sources sources).1) :
    ∃ s, aget "room_number" r = some (.str s) ∧ s ≠ "" := by
  simp only [read_from_multiple_sources] at hr
  rcases List.mem_map.mp hr with ⟨p, hp, hrp⟩
  subst hrp
  refine ⟨p.2.room_number, ?_, ?_⟩
  · exact aget_cons_self "room_number" (Value.str p.2.room_number) _
  · exact mergeFold_roomNumbersOk sources ([], [])
      (fun q hq => absurd hq (List.not_mem_nil q)) p hp

/-- Witness for C6 at a one-source merge. -/
theorem c6_witness :
    ∃ s, aget "room_number"
        [("room_number", Value.str "101"), ("heat_loss", Value.num 900)]
      = some (.str s) ∧ s ≠ "" :=
  c6_merged_records_have_nonempty_room_number
    [⟨"s1", some "a.xlsx", [[("room_number", .str "101"), ("heat_loss", .num 900)]], [], 1⟩]
    [("room_number", Value.str "101"), ("heat_loss", Value.num 900)]
    (by with_unfolding_all decide)

/-- Claim C7: merging a source whose allow-list is exactly
`["heat_loss"]` leaves every field other than `heat_loss` (and
`room_number`) of every merged room unchanged, whatever values its
records carry — the allow-list check skips every other field before any
write can happen. -/
theorem c7_restricted_source_changes_only_heat_loss
    (st : List (String × MergedRoom)) (stats : List (String × SourceStats))
    (name : String) (fp : Option String) (rows : List RoomRecord) (prio : Int)
    (room f : String) (hf : f ≠ "heat_loss") (_hrn : f ≠ "room_number") :
    mergedFieldValue ((processSource (st, stats)
        ⟨name, fp, rows, ["heat_loss"], prio⟩).1) room f
      = mergedFieldValue st room f := by
  simp only [processSource]
  split_ifs
  · rfl
  · rfl
  · exact foldRecords_restricted hf prio name rows (st, 0, 0) room

/-- Witness for C7: the restricted source carries an `area` value, and
the merged `area` for its room is untouched (absent before, absent
after). -/
theorem c7_witness :
    mergedFieldValue ((processSource ([], [])
      ⟨"hl", some "h.xlsx",
        [[("room_number", .str "101"), ("area", .num 5), ("heat_loss", .num 7)]],
        ["heat_loss"], 3⟩).1) "101" "area"
      = mergedFieldValue [] "101" "area" :=
  c7_restricted_source_changes_only_heat_loss [] [] "hl" (some "h.xlsx")
    [[("room_number", .str "101"), ("area", .num 5), ("heat_loss", .num 7)]] 3
    "101" "area" (by decide) (by decide)

theorem mergeFold_all_failed (sources : List DataSource) :
    ∀ stats : List (String × SourceStats),
      (∀ source ∈ sources, filePathFalsy source.file_path = true ∨ source.rows = []) →
      ((sources.foldl processSource ([], stats)).1) = [] := by
  induction sources with
  | nil => intro stats _; rfl
  | cons s rest ih =>
    intro stats h
    rw [List.foldl_cons]
    by_cases hfp : filePathFalsy s.file_path = true
    · rw [show processSource ([], stats) s = ([], stats) from by
        simp [processSource, hfp]]
      exact ih stats (fun q hq => h q (List.mem_cons_of_mem _ hq))
    · have hrw : s.rows = [] := by
        rcases h s (List.mem_cons_self _ _) with h1 | h1
        · exact absurd h1 hfp
        · exact h1
      rw [show processSource ([], stats) s = ([], aset s.name ⟨0, 0⟩ stats) from by
        simp [processSource, hfp, hrw]]
      exact ih _ (fun q hq => h q (List.mem_cons_of_mem _ hq))

/-- Claim C8 (amended): a source with a falsy file reference contributes
zero records and is skipped with NO statistics entry (not the zero-count
entry the claim states); a source whose load produced no records
contributes zero records and IS recorded as a zero-rooms, zero-fields
entry; merging continues in both cases; an empty source list, and a
source set in which every source fails, both yield an empty merged set
rather than an error. -/
theorem c8_amended_failure_semantics :
    (∀ (st : List (String × MergedRoom)) (stats : List (String × SourceStats))
        (source : DataSource), filePathFalsy source.file_path = true →
        processSource (st, stats) source = (st, stats))
    ∧ (∀ (st : List (String × MergedRoom)) (stats : List (String × SourceStats))
        (source : DataSource), filePathFalsy source.file_path = false →
        source.rows = [] →
        processSource (st, stats) source = (st, aset source.name ⟨0, 0⟩ stats))
    ∧ read_from_multiple_sources [] = ([], [])
    ∧ (∀ sources : List DataSource,
        (∀ source ∈ sources,
          filePathFalsy source.file_path = true ∨ source.rows = []) →
        (read_from_multiple_sources sources).1 = []) := by
  refine ⟨?_, ?_, rfl, ?_⟩
  · intro st stats source h
    simp [processSource, h]
  · intro st stats source h1 h2
    simp [processSource, h1, h2]
  · intro sources h
    simp only [read_from_multiple_sources]
    rw [mergeFold_all_failed sources [] h]
    rfl

/-- Witness for C8: a pathless source and a failed-load source at
concrete inputs, and an all-failing source set merging to the empty
set. -/
theorem c8_witness :
    processSource ([], []) (⟨"s", none, [], [], 1⟩ : DataSource) = ([], [])
    ∧ processSource ([], []) (⟨"t", some "x.xlsx", [], [], 2⟩ : DataSource)
        = ([], aset "t" ⟨0, 0⟩ [])
    ∧ (read_from_multiple_sources
        [⟨"s", none, [], [], 1⟩, ⟨"t", some "x.xlsx", [], [], 2⟩]).1 = [] :=
  ⟨c8_amended_failure_semantics.1 [] [] ⟨"s", none, [], [], 1⟩ (by decide),
   c8_amended_failure_semantics.2.1 [] [] ⟨"t", some "x.xlsx", [], [], 2⟩
     (by decide) rfl,
   c8_amended_failure_semantics.2.2.2
     [⟨"s", none, [], [], 1⟩, ⟨"t", some "x.xlsx", [], [], 2⟩] (by decide)⟩

/-- Claim C4 (amended): for a field in the numeric set — (i) a NaN
(blank) cell resolves to the empty STRING, not 0.0 (the `pd.isna`
branch runs first); (ii) a cell holding the empty string resolves to
0.0; (iii) a parseable cell resolves to its float value; (iv) a column
absent from the row leaves the field absent rather than 0.0; (v)
non-numeric text in the cell aborts the WHOLE row — the resolver
returns absent — instead of degrading only that field. In every case the
resolver returns normally (an optional record); no exception reaches the
caller. -/
theorem c4_amended_numeric_field_resolution :
    (∀ (row : RawRow) (info : RoomRecord) (f c : String),
        f ∈ numericFields → aget c row = some none →
        extractField row (some info) (f, c) = some (aset f (.str "") info))
    ∧ (∀ (row : RawRow) (info : RoomRecord) (f c : String),
        f ∈ numericFields → aget c row = some (some (.str "")) →
        extractField row (some info) (f, c) = some (aset f (.num 0) info))
    ∧ (∀ (row : RawRow) (info : RoomRecord) (f c : String) (v : Value) (q : Rat),
        f ∈ numericFields → aget c row = some (some v) → ¬ v = .str "" →
        pyFloat v = some q →
        extractField row (some info) (f, c) = some (aset f (.num q) info))
    ∧ (∀ (row : RawRow) (info : RoomRecord) (f c : String),
        aget c row = none → extractField row (some info) (f, c) = some info)
    ∧ (∀ (cfg₁ cfg₂ : List (String × String)) (f c : String) (row : RawRow)
        (v : Value), f ∈ numericFields → aget c row = some (some v) →
        ¬ v = .str "" → pyFloat v = none →
        extract_room_info (cfg₁ ++ (f, c) :: cfg₂) row = none) := by
  refine ⟨?_, ?_, ?_, ?_, extract_drops_row⟩
  · intro row info f c _ hc
    simp [extractField, hc]
  · intro row info f c hnum hc
    simp [extractField, hc, hnum]
  · intro row info f c v q hnum hc hne hq
    simp [extractField, hc, hnum, hne, hq]
  · intro row info f c hc
    simp [extractField, hc]

/-- Witness for C4: a blank `temperature` cell resolving to `""`, and a
row with `"abc"` in the `area` column resolving to absent as a whole. -/
theorem c4_witness :
    extractField [("T", none)] (some []) ("temperature", "T")
      = some (aset "temperature" (.str "") [])
    ∧ extract_room_info ([("room_number", "N")] ++ ("area", "A") :: [])
        [("N", some (.str "101")), ("A", some (.str "abc"))] = none :=
  ⟨c4_amended_numeric_field_resolution.1 [("T", none)] [] "temperature" "T"
     (by decide) (by decide),
   c4_amended_numeric_field_resolution.2.2.2.2 [("room_number", "N")] [] "area" "A"
     [("N", some (.str "101")), ("A", some (.str "abc"))] (.str "abc")
     (by decide) (by decide) (by decide) (by decide)⟩

/-- Claim C5 (amended): the resolver returns absent exactly when a
numeric coercion failed (non-numeric text in a numeric-designated,
non-blank, non-empty cell) OR the resolved `room_number` is falsy
(absent or empty) — not only in the empty-room-number case the claim
states — and the caller drops exactly the absent rows, continuing with
the remaining rows of the batch. -/
theorem c5_amended_absent_iff_failure_or_empty_room :
    (∀ (cfg : List (String × String)) (row : RawRow),
      extract_room_info cfg row = none
        ↔ (coercionFailure cfg row = true
            ∨ roomNumberFalsy (resolvedRecord cfg row) = true))
    ∧ (∀ (cfg : List (String × String)) (rows₁ : List RawRow) (r : RawRow)
        (rows₂ : List RawRow), extract_room_info cfg r = none →
        read_standard_table cfg (rows₁ ++ r :: rows₂)
          = read_standard_table cfg (rows₁ ++ rows₂)) := by
  refine ⟨extract_room_info_none_iff, ?_⟩
  intro cfg rows₁ r rows₂ hnone
  simp only [read_standard_table, List.filter_append, List.filter_cons,
    List.filterMap_append]
  cases hc : aget ((aget "room_number" cfg).getD "Номер помещения") r with
  | none => simp [hc, hnone]
  | some cell =>
    cases cell with
    | none => simp [hc]
    | some v => simp [hc, hnone]

/-- Witness for C5: the iff at the non-numeric-area row, and the caller
dropping that row from a batch. -/
theorem c5_witness :
    (extract_room_info [("room_number", "N"), ("area", "A")]
        [("N", some (.str "101")), ("A", some (.str "abc"))] = none
      ↔ (coercionFailure [("room_number", "N"), ("area", "A")]
            [("N", some (.str "101")), ("A", some (.str "abc"))] = true
          ∨ roomNumberFalsy (resolvedRecord [("room_number", "N"), ("area", "A")]
              [("N", some (.str "101")), ("A", some (.str "abc"))]) = true))
    ∧ read_standard_table [("room_number", "N"), ("area", "A")]
        ([] ++ [("N", some (.str "101")), ("A", some (.str "abc"))] :: [])
        = read_standard_table [("room_number", "N"), ("area", "A")] ([] ++ []) :=
  ⟨c5_amended_absent_iff_failure_or_empty_room.1 [("room_number", "N"), ("area", "A")]
     [("N", some (.str "101")), ("A", some (.str "abc"))],
   c5_amended_absent_iff_failure_or_empty_room.2 [("room_number", "N"), ("area", "A")]
     [] [("N", some (.str "101")), ("A", some (.str "abc"))] []
     (by with_unfolding_all decide)⟩

/-- Claim C10: every record the heat-loss parser emits carries the
constant temperature 20.0 — a default never read from the sheet — with
`room_number` the stringified, stripped column-A cell, `room_name` the
column-B cell, and `heat_loss` the column-S value (0.0 when missing or
unparseable), all taken from a sheet row at 0-based index ≥ 19, i.e.
spreadsheet row 20 onward. -/
theorem c10_heat_loss_records_shape (grid : List (List Cell)) (r : RoomRecord)
    (hr : r ∈ read_heat_loss_table grid) :
    aget "temperature" r = some (Value.num 20)
    ∧ ∃ i row, 19 ≤ i ∧ grid[i]? = some row ∧ parseHeatLossRow row = some r
      ∧ ∃ rn rm, cellAt row 0 = some rn ∧ cellAt row 1 = some rm
        ∧ r = [("room_number", .str (pyStrip (pyStr rn))),
               ("room_name", .str (pyStrip (pyStr rm))),
               ("heat_loss", .num (match cellAt row 18 with
                                    | none => 0
                                    | some v => (pyFloat v).getD 0)),
               ("temperature", .num 20)] := by
  unfold read_heat_loss_table at hr
  rcases List.mem_filterMap.mp hr with ⟨row, hrow, hparse⟩
  have hshape : ∃ rn rm, cellAt row 0 = some rn ∧ cellAt row 1 = some rm
      ∧ r = [("room_number", .str (pyStrip (pyStr rn))),
             ("room_name", .str (pyStrip (pyStr rm))),
             ("heat_loss", .num (match cellAt row 18 with
                                  | none => 0
                                  | some v => (pyFloat v).getD 0)),
             ("temperature", .num 20)] := by
    unfold parseHeatLossRow at hparse
    cases h0 : cellAt row 0 with
    | none => rw [h0] at hparse; cases hparse
    | some rn =>
      cases h1 : cellAt row 1 with
      | none => rw [h0, h1] at hparse; cases hparse
      | some rm =>
        rw [h0, h1] at hparse
        dsimp only [] at hparse
        split_ifs at hparse with hA hB
        injection hparse with h
        subst h
        exact ⟨rn, rm, rfl, rfl, rfl⟩
  rcases List.mem_iff_getElem?.mp hrow with ⟨j, hj⟩
  rw [List.getElem?_drop] at hj
  rcases hshape with ⟨rn, rm, h0, h1, hre⟩
  refine ⟨?_, 19 + j, row, by omega, hj, hparse, rn, rm, h0, h1, hre⟩
  rw [hre]
  rw [show aget "temperature"
      [("room_number", Value.str (pyStrip (pyStr rn))),
       ("room_name", Value.str (pyStrip (pyStr rm))),
       ("heat_loss", Value.num (match cellAt row 18 with
                                 | none => 0
                                 | some v => (pyFloat v).getD 0)),
       ("temperature", Value.num 20)]
      = some (Value.num 20) from by
    rw [aget_cons_ne (by decide), aget_cons_ne (by decide),
      aget_cons_ne (by decide), aget_cons_self]]

/-- Witness for C10 at a concrete 20-row sheet. -/
theorem c10_witness :
    aget "temperature"
        [("room_number", Value.str "101"), ("room_name", Value.str "Office"),
         ("heat_loss", Value.num 1200), ("temperature", Value.num 20)]
      = some (Value.num 20)
    ∧ ∃ i row, 19 ≤ i
      ∧ (List.replicate 19 ([] : List Cell)
          ++ [[some (.str "101"), some (.str "Office")]
              ++ List.replicate 16 (none : Cell) ++ [some (.str "1200")]])[i]?
        = some row
      ∧ parseHeatLossRow row
        = some [("room_number", Value.str "101"), ("room_name", Value.str "Office"),
                ("heat_loss", Value.num 1200), ("temperature", Value.num 20)]
      ∧ ∃ rn rm, cellAt row 0 = some rn ∧ cellAt row 1 = some rm
        ∧ [("room_number", Value.str "101"), ("room_name", Value.str "Office"),
           ("heat_loss", Value.num 1200), ("temperature", Value.num 20)]
          = [("room_number", .str (pyStrip (pyStr rn))),
             ("room_name", .str (pyStrip (pyStr rm))),
             ("heat_loss", .num (match cellAt row 18 with
                                  | none => 0
                                  | some v => (pyFloat v).getD 0)),
             ("temperature", .num 20)] :=
  c10_heat_loss_records_shape
    (List.replicate 19 ([] : List Cell)
      ++ [[some (.str "101"), some (.str "Office")]
          ++ List.replicate 16 (none : Cell) ++ [some (.str "1200")]])
    [("room_number", Value.str "101"), ("room_name", Value.str "Office"),
     ("heat_loss", Value.num 1200), ("temperature", Value.num 20)]
    (by with_unfolding_all decide)

end HVAC
